import Mathlib

/-!
Shallow embedding of the KIPRIM DC310S controller logic from
src/UI.py, src/UI-v3.py and src/UI-seprated-chart.py.

Python floats are modelled as rationals (ℚ).  Replies obtained from
`send_command` are `Option String` (`none` models Python `None`).  The
voltage/current entry widgets of UI-v3 are modelled by the rational value of
the numeric text they hold while reasoning about preset loading, where only
the value matters; the raw-string level of the entry text is modelled
separately for the setpoint-validation callbacks of UI.py and UI-v3.py.
GUI rendering (labels, plots, colors) is modelled only insofar as state is
recorded: a label showing "---" is an `Option` holding `none`.
-/

/- The Batteries rational-number operations are irreducible by default, which
blocks elaborator-side evaluation of concrete states by `decide`; the kernel
unfolds them either way.  Restore semireducibility locally so concrete runs
of the model evaluate. -/
attribute [local semireducible] Rat.add Rat.mul Rat.inv Rat.sub Rat.ofScientific

namespace DC310S

/-- Characters Python strips as whitespace at both ends of a string given to
float() or str.strip(). -/
def pyWhitespace (c : Char) : Bool :=
  c = ' ' || c = '\t' || c = '\n' || c = '\r' || c = '\x0b' || c = '\x0c'

/-- Strip leading and trailing whitespace from a character list. -/
def trimChars (l : List Char) : List Char :=
  ((l.dropWhile pyWhitespace).reverse.dropWhile pyWhitespace).reverse

/-- All characters are decimal digits. -/
def allDigits (l : List Char) : Bool := l.all Char.isDigit

/-- Numeric value of a decimal digit string. -/
def natOfDigits (l : List Char) : ℕ :=
  l.foldl (fun a c => a * 10 + (c.toNat - 48)) 0

/-- Mantissa of a Python float literal: digits with at most one dot and at
least one digit overall. -/
def parseMantissa (l : List Char) : Option ℚ :=
  let ip := l.takeWhile (fun c => c ≠ '.')
  match l.dropWhile (fun c => c ≠ '.') with
  | [] => if !ip.isEmpty && allDigits ip then some (natOfDigits ip) else none
  | _ :: fp =>
      if fp.contains '.' then none
      else if ip.isEmpty && fp.isEmpty then none
      else if allDigits ip && allDigits fp then
        some ((natOfDigits ip : ℚ) + (natOfDigits fp : ℚ) / ((10 : ℚ) ^ fp.length))
      else none

/-- Exponent part of a Python float literal, after the e/E marker: an
optional sign followed by at least one digit. -/
def parseExponent (l : List Char) : Option ℤ :=
  match l with
  | '+' :: ds => if !ds.isEmpty && allDigits ds then some (natOfDigits ds : ℤ) else none
  | '-' :: ds => if !ds.isEmpty && allDigits ds then some (-(natOfDigits ds : ℤ)) else none
  | ds => if !ds.isEmpty && allDigits ds then some (natOfDigits ds : ℤ) else none

/-- Value of an unsigned Python float literal, possibly with an exponent. -/
def parseUnsigned (l : List Char) : Option ℚ :=
  let m := l.takeWhile (fun c => c ≠ 'e' && c ≠ 'E')
  match l.dropWhile (fun c => c ≠ 'e' && c ≠ 'E') with
  | [] => parseMantissa m
  | _ :: ex =>
    match parseMantissa m, parseExponent ex with
    | some q, some e => some (q * (10 : ℚ) ^ e)
    | _, _ => none

/-- Model of Python float(s) restricted to finite decimal literals: strip
whitespace, optional sign, digits with an optional dot and exponent.  The
non-finite literals inf/nan and digit-group underscores that Python also
accepts are outside the model; no claim exercises them. -/
def pyFloat (s : String) : Option ℚ :=
  match trimChars s.data with
  | '+' :: rest => parseUnsigned rest
  | '-' :: rest => (parseUnsigned rest).map (fun q => -q)
  | l => parseUnsigned l

/-- Python str.strip() with no argument: remove whitespace from both ends. -/
def stripStr (s : String) : String := { data := trimChars s.data }

/-- Python float() applied to a reply that may be None; float(None) raises
TypeError, which the bare except of refresh_measurements catches exactly like
a parse failure. -/
def parseReply (r : Option String) : Option ℚ := r.bind pyFloat

/-- Python truthiness of a reply: None and the empty string are falsy, every
other string is truthy. -/
def truthy : Option String → Bool
  | none => false
  | some s => !s.isEmpty

/-- History sample a tick records for a reply: the parsed float, or 0 when
parsing failed. -/
def sampleOf (r : Option String) : ℚ := (parseReply r).getD 0

/-- Append to a collections.deque with maxlen=100: the new element goes on
the right and elements are discarded from the left while the length exceeds
100 (UI-v3 lines 23-24). -/
def pushHist (h : List ℚ) (x : ℚ) : List ℚ :=
  let h2 := h ++ [x]
  if 100 < h2.length then h2.drop (h2.length - 100) else h2

/-- Auto-reset mode: the three strings offered by the reset comboboxes
(UI-v3 lines 147-153). -/
inductive ResetMode where
  | onOutputOn
  | onOutputOff
  | noReset
deriving DecidableEq

/-- Contents of the auto_reset_mode dict: one mode per key among
timer/energy/all. -/
structure ResetPolicy where
  timer : ResetMode
  energy : ResetMode
  all : ResetMode
deriving DecidableEq

/-- The three reset targets, in no particular order. -/
inductive ResetTarget where
  | timer
  | energy
  | all
deriving DecidableEq

/-- Default reset settings written by load_reset_settings
(UI-v3 lines 43-52). -/
def defaultResetPolicy : ResetPolicy :=
  { timer := .onOutputOff, energy := .onOutputOff, all := .noReset }

/-- State of the UI-v3 controller object that the claims are about: measured
values, histories, accumulators, reset policy, setpoint entries and the
preset confirmation gate (UI-v3 lines 22-32).  Entry widgets holding numeric
text are modelled by their value. -/
structure UIState where
  output_voltage : ℚ
  output_power : ℚ
  voltage_history : List ℚ
  current_history : List ℚ
  elapsed_seconds : ℤ
  energy_ws : ℚ
  preset_click_stage : ℕ
  voltage_entry : ℚ
  current_entry : ℚ
  load_button_red : Bool
  meas_voltage_text : Option ℚ
  meas_current_text : Option ℚ
  meas_power_text : Option ℚ
  auto_reset_mode : ResetPolicy
deriving DecidableEq

/-- Output state inferred from the last measured voltage
(UI-v3 line 226: return self.output_voltage > 0.5). -/
def get_output_state (st : UIState) : Bool :=
  decide ((0.5 : ℚ) < st.output_voltage)

/-- Reset Timer button (UI-v3 line 159). -/
def reset_timer (st : UIState) : UIState := { st with elapsed_seconds := 0 }

/-- Reset Energy button (UI-v3 line 160). -/
def reset_energy (st : UIState) : UIState := { st with energy_ws := 0 }

/-- Reset All button: reset_timer then reset_energy (UI-v3 line 161). -/
def reset_all (st : UIState) : UIState := reset_energy (reset_timer st)

/-- Voltage branch of refresh_measurements (UI-v3 lines 260-267): on parse
success store the value, display it and append it to the history; on failure
display "---", force output_voltage to 0 and append 0. -/
def recordVoltage (st : UIState) (v_str : Option String) : UIState :=
  match parseReply v_str with
  | some v =>
      { st with output_voltage := v, meas_voltage_text := some v,
                voltage_history := pushHist st.voltage_history v }
  | none =>
      { st with output_voltage := 0, meas_voltage_text := none,
                voltage_history := pushHist st.voltage_history 0 }

/-- Current branch of refresh_measurements (UI-v3 lines 268-274). -/
def recordCurrent (st : UIState) (i_str : Option String) : UIState :=
  match parseReply i_str with
  | some i =>
      { st with meas_current_text := some i,
                current_history := pushHist st.current_history i }
  | none =>
      { st with meas_current_text := none,
                current_history := pushHist st.current_history 0 }

/-- Accumulation and auto-reset phase of refresh_measurements
(UI-v3 lines 280-290): on an active tick increment elapsed_seconds and add
output_power to energy_ws, then apply the reset-on-output-on modes in the
order all, timer, energy; on an inactive tick apply the
reset-on-output-off modes in the same order.  The source reads
self.auto_reset_mode after the earlier resets in the chain; no reset touches
auto_reset_mode, so reading every mode from st is the same function. -/
def accumPhase (st : UIState) : UIState :=
  if get_output_state st then
    let stA := { st with elapsed_seconds := st.elapsed_seconds + 1,
                         energy_ws := st.energy_ws + st.output_power }
    let stB := if st.auto_reset_mode.all = .onOutputOn then reset_all stA else stA
    let stC := if st.auto_reset_mode.timer = .onOutputOn then reset_timer stB else stB
    if st.auto_reset_mode.energy = .onOutputOn then reset_energy stC else stC
  else
    let stB := if st.auto_reset_mode.all = .onOutputOff then reset_all st else st
    let stC := if st.auto_reset_mode.timer = .onOutputOff then reset_timer stB else stB
    if st.auto_reset_mode.energy = .onOutputOff then reset_energy stC else stC

/-- State after the two parse/record branches of a tick. -/
def parsedState (st : UIState) (v_str i_str : Option String) : UIState :=
  recordCurrent (recordVoltage st v_str) i_str

/-- Power as computed at UI-v3 line 276 on a tick that completes:
output_voltage times the parsed current when both replies are truthy,
otherwise 0. -/
def powerOf (v_str i_str : Option String) : ℚ :=
  if truthy v_str && truthy i_str then sampleOf v_str * sampleOf i_str else 0

/-- Whether a tick runs to completion.  At UI-v3 line 276 the expression
output_voltage * i is evaluated whenever both reply strings are truthy; if
the current reply then failed to parse, the local i was never bound and the
tick aborts with UnboundLocalError. -/
def completes (v_str i_str : Option String) : Bool :=
  !(truthy v_str && truthy i_str && (parseReply i_str).isNone)

/-- State after the power computation of a completing tick
(UI-v3 lines 276-278): output_power is stored and the power label shows the
value when it is nonzero (Python truthiness of a float) and "---" otherwise. -/
def poweredState (st : UIState) (v_str i_str : Option String) : UIState :=
  { parsedState st v_str i_str with
    output_power := powerOf v_str i_str,
    meas_power_text :=
      if powerOf v_str i_str = 0 then none else some (powerOf v_str i_str) }

/-- One execution of refresh_measurements (UI-v3 lines 257-298) on the two
replies of this tick.  The Bool is true when the tick ran to completion and
false when it aborted with UnboundLocalError at the power computation, in
which case all mutations made before line 276 (both history appends,
output_voltage, both measurement labels) persist and everything after
(power, accumulators, resets) is skipped. -/
def refresh_measurements (st : UIState) (v_str i_str : Option String) :
    Bool × UIState :=
  let st2 := parsedState st v_str i_str
  if truthy v_str && truthy i_str then
    match parseReply i_str with
    | none => (false, st2)
    | some i =>
        let p := st2.output_voltage * i
        let st3 := { st2 with output_power := p,
                              meas_power_text := if p = 0 then none else some p }
        (true, accumPhase st3)
  else
    (true, accumPhase { st2 with output_power := 0, meas_power_text := none })

/-- Output-active as inferred during this tick's accumulation phase: after
the parse branches, output_voltage holds the parsed voltage or 0. -/
def activeOf (v_str : Option String) : Bool :=
  decide ((0.5 : ℚ) < sampleOf v_str)

/-- Single per-tick accumulator update, determined by the reset policy, the
inferred output state and this tick's power, acting on the pair
(elapsed_seconds, energy_ws). -/
def tickAccum (pol : ResetPolicy) (active : Bool) (power : ℚ) (a : ℤ × ℚ) :
    ℤ × ℚ :=
  if active then
    let b : ℤ × ℚ := (a.1 + 1, a.2 + power)
    let b := if pol.all = .onOutputOn then ((0 : ℤ), (0 : ℚ)) else b
    let b := if pol.timer = .onOutputOn then ((0 : ℤ), b.2) else b
    if pol.energy = .onOutputOn then (b.1, (0 : ℚ)) else b
  else
    let b := if pol.all = .onOutputOff then ((0 : ℤ), (0 : ℚ)) else a
    let b := if pol.timer = .onOutputOff then ((0 : ℤ), b.2) else b
    if pol.energy = .onOutputOff then (b.1, (0 : ℚ)) else b

/-- Reset action of one target. -/
def resetFor : ResetTarget → UIState → UIState
  | .timer => reset_timer
  | .energy => reset_energy
  | .all => reset_all

/-- Mode configured for one target. -/
def modeFor (pol : ResetPolicy) : ResetTarget → ResetMode
  | .timer => pol.timer
  | .energy => pol.energy
  | .all => pol.all

/-- Reset pass applying the targets in the stated order all, timer, energy:
each target whose configured mode equals the trigger has its reset executed. -/
def applyResetsInOrder (trigger : ResetMode) (st : UIState) : UIState :=
  [ResetTarget.all, ResetTarget.timer, ResetTarget.energy].foldl
    (fun s t => if modeFor s.auto_reset_mode t = trigger then resetFor t s else s)
    st

/-- Events the claims quantify over: a telemetry tick carrying the two raw
replies, the three manual reset buttons, and changing one reset mode via its
combobox (UI-v3 lines 155-157). -/
inductive Ev where
  | tick (v_str i_str : Option String)
  | resetTimerBtn
  | resetEnergyBtn
  | resetAllBtn
  | setMode (k : ResetTarget) (m : ResetMode)

/-- set_reset_mode (UI-v3 lines 155-157), persisting aside. -/
def setResetModeFn (st : UIState) (k : ResetTarget) (m : ResetMode) : UIState :=
  match k with
  | .timer => { st with auto_reset_mode := { st.auto_reset_mode with timer := m } }
  | .energy => { st with auto_reset_mode := { st.auto_reset_mode with energy := m } }
  | .all => { st with auto_reset_mode := { st.auto_reset_mode with all := m } }

/-- One event step on the controller state.  A tick that aborts still leaves
its partial mutations in place, exactly as an exception would in Python. -/
def step (st : UIState) : Ev → UIState
  | .tick v_str i_str => (refresh_measurements st v_str i_str).2
  | .resetTimerBtn => reset_timer st
  | .resetEnergyBtn => reset_energy st
  | .resetAllBtn => reset_all st
  | .setMode k m => setResetModeFn st k m

/-- Run a sequence of events. -/
def run (st : UIState) (evs : List Ev) : UIState := evs.foldl step st

/-- Initial controller state (UI-v3 lines 22-32), with the reset policy read
from the settings file as a parameter. -/
def initState (pol : ResetPolicy) : UIState :=
  { output_voltage := 0
    output_power := 0
    voltage_history := []
    current_history := []
    elapsed_seconds := 0
    energy_ws := 0
    preset_click_stage := 0
    voltage_entry := 0
    current_entry := 0
    load_button_red := false
    meas_voltage_text := none
    meas_current_text := none
    meas_power_text := none
    auto_reset_mode := pol }

/-- A stored preset: voltage and current (presets.json values). -/
structure Preset where
  voltage : ℚ
  current : ℚ
deriving DecidableEq

/-- Commands issued to the supply by the preset logic, at the level of the
values they carry. -/
inductive Cmd where
  | output (b : Bool)
  | voltage (q : ℚ)
  | current (q : ℚ)
deriving DecidableEq

/-- load_selected_preset (UI-v3 lines 237-255).  The listbox lookup is
modelled by the optional resolved preset; `none` covers the early returns for
no selection or an unknown name.  When output is active and the gate stage is
0, the button turns red, the stage becomes 1 and nothing else happens.
Otherwise the entries receive the preset values, set_voltage and set_current
send them, the button returns to lightblue and the stage returns to 0. -/
def load_selected_preset (st : UIState) (preset : Option Preset) :
    UIState × List Cmd :=
  match preset with
  | none => (st, [])
  | some p =>
    if get_output_state st && st.preset_click_stage == 0 then
      ({ st with load_button_red := true, preset_click_stage := 1 }, [])
    else
      ({ st with voltage_entry := p.voltage, current_entry := p.current,
                 load_button_red := false, preset_click_stage := 0 },
       [Cmd.voltage p.voltage, Cmd.current p.current])

/-- Serial connection as seen by send_command: open flag, stale input queued
on the transport, the log of written lines, which of the three I/O steps
raises, and the line the device will reply when the read succeeds. -/
structure Conn where
  isOpen : Bool
  pend : List String
  written : List String
  resetRaises : Bool
  writeRaises : Bool
  readRaises : Bool
  reply : String
deriving DecidableEq

/-- send_command (UI-v3 lines 217-224, identical in UI.py lines 102-110): if
there is no connection or it is not open, return None; otherwise clear the
stale input buffer, write the newline-terminated command, read one reply line
and strip it; any exception in those steps yields None.  The model keeps the
partially mutated connection alongside the result. -/
def send_command (conn : Option Conn) (cmd : String) :
    Option String × Option Conn :=
  match conn with
  | none => (none, none)
  | some c =>
    if !c.isOpen then (none, some c)
    else if c.resetRaises then (none, some c)
    else
      let c1 : Conn := { c with pend := [] }
      if c1.writeRaises then (none, some c1)
      else
        let c2 : Conn := { c1 with written := c1.written ++ [cmd ++ "\n"] }
        if c2.readRaises then (none, some c2)
        else (some (stripStr c2.reply), some c2)

/-- Session state around the connection (UI-v3 lines 60-68): chosen port,
optional serial connection, the two output buttons and the status light. -/
structure Session where
  port : String
  serial_conn : Option Conn
  onEnabled : Bool
  offEnabled : Bool
  statusGreen : Bool
deriving DecidableEq

/-- disconnect (UI-v3 lines 209-215): when a connection exists it is closed
and the handle dropped; the buttons are disabled and the indicator set red
unconditionally.  Closing the handle being dropped has no observable effect
on the session, so both branches leave serial_conn absent. -/
def disconnect (s : Session) : Session :=
  { s with serial_conn := none, onEnabled := false, offEnabled := false,
           statusGreen := false }

/-- set_voltage of UI.py (lines 115-121): validate the entry text parses as a
float and silently drop it otherwise; the result is the command line handed
to send_command, or none when nothing is sent. -/
def UIpy_set_voltage (value : String) : Option String :=
  match pyFloat value with
  | some _ => some ("voltage " ++ value)
  | none => none

/-- set_current of UI.py (lines 123-129). -/
def UIpy_set_current (value : String) : Option String :=
  match pyFloat value with
  | some _ => some ("current " ++ value)
  | none => none

/-- set_voltage of UI-v3.py (line 228): no validation, the raw entry text is
always sent. -/
def UIv3_set_voltage (value : String) : Option String :=
  some ("voltage " ++ value)

/-- set_current of UI-v3.py (line 229). -/
def UIv3_set_current (value : String) : Option String :=
  some ("current " ++ value)

/-- Power sum of a reply sequence: per tick, the product of the two recorded
samples. -/
def powerSum (reps : List (Option String × Option String)) : ℚ :=
  (reps.map (fun r => sampleOf r.1 * sampleOf r.2)).sum

/-- A tick event whose current sample is nonnegative (a failed parse records
0, which counts as nonnegative); non-tick events satisfy this trivially. -/
def nonnegCurrentEv : Ev → Bool
  | .tick _ i_str => decide ((0 : ℚ) ≤ sampleOf i_str)
  | _ => true

/-- No reset-on-output-on mode is configured. -/
def noOnResets (pol : ResetPolicy) : Prop :=
  pol.all ≠ ResetMode.onOutputOn ∧ pol.timer ≠ ResetMode.onOutputOn ∧
    pol.energy ≠ ResetMode.onOutputOn

instance (pol : ResetPolicy) : Decidable (noOnResets pol) := by
  unfold noOnResets; infer_instance

/-- Reset policy with every mode set to no reset. -/
def polNone : ResetPolicy := { timer := .noReset, energy := .noReset, all := .noReset }

/-- Reset policy with only the all target set to reset on output off. -/
def polAllOff : ResetPolicy := { timer := .noReset, energy := .noReset, all := .onOutputOff }

/-- Reset policy with only the timer target set to reset on output off. -/
def polTimerOff : ResetPolicy := { timer := .onOutputOff, energy := .noReset, all := .noReset }

/-- Controller state with the output measured active and the preset gate idle. -/
def presetIdleActiveSt : UIState := { initState defaultResetPolicy with output_voltage := 5 }

/-- Concrete preset similar to the shipped USB Power Supply preset. -/
def presetA : Preset := { voltage := 5, current := 3 }

/-- Concrete preset similar to the shipped Lead Acid Battery preset. -/
def presetB : Preset := { voltage := 137/10, current := 3 }

/-- Controller state with a previously measured active voltage, nonzero
accumulators and the timer mode set to reset on output off. -/
def c10St : UIState :=
  { initState polTimerOff with
      output_voltage := 12
      elapsed_seconds := 9
      energy_ws := 35 }

/-- Open connection with stale queued input and no faults. -/
def faultFreeConn : Conn :=
  { isOpen := true, pend := ["stale"], written := [], resetRaises := false,
    writeRaises := false, readRaises := false, reply := "OK" }

/-- Connection whose handle is already closed. -/
def closedConn : Conn :=
  { isOpen := false, pend := ["stale"], written := [], resetRaises := false,
    writeRaises := false, readRaises := false, reply := "OK" }

/-! Helper lemmas about the embedded operations. -/

theorem pyFloat_empty : pyFloat "" = none := rfl

theorem truthy_of_parse {r : Option String} {q : ℚ} (h : parseReply r = some q) :
    truthy r = true := by
  cases r with
  | none => simp [parseReply] at h
  | some s =>
    by_cases hs : s = ""
    · subst hs
      rw [show parseReply (some "") = none from rfl] at h
      exact absurd h (by simp)
    · have he : s.isEmpty = false := by
        cases hb : s.isEmpty
        · rfl
        · exact absurd ((String.isEmpty_iff s).mp hb) hs
      simp [truthy, he]

theorem resets_keep_mode (st : UIState) :
    (reset_timer st).auto_reset_mode = st.auto_reset_mode ∧
    (reset_energy st).auto_reset_mode = st.auto_reset_mode ∧
    (reset_all st).auto_reset_mode = st.auto_reset_mode :=
  ⟨rfl, rfl, rfl⟩

theorem parsedState_spec (st : UIState) (v_str i_str : Option String) :
    (parsedState st v_str i_str).output_voltage = sampleOf v_str ∧
    (parsedState st v_str i_str).voltage_history
      = pushHist st.voltage_history (sampleOf v_str) ∧
    (parsedState st v_str i_str).current_history
      = pushHist st.current_history (sampleOf i_str) ∧
    (parsedState st v_str i_str).elapsed_seconds = st.elapsed_seconds ∧
    (parsedState st v_str i_str).energy_ws = st.energy_ws ∧
    (parsedState st v_str i_str).auto_reset_mode = st.auto_reset_mode := by
  unfold parsedState recordVoltage recordCurrent sampleOf
  cases hv : parseReply v_str <;> cases hi : parseReply i_str <;> simp

theorem accumPhase_accum (st : UIState) :
    ((accumPhase st).elapsed_seconds, (accumPhase st).energy_ws)
      = tickAccum st.auto_reset_mode (get_output_state st) st.output_power
          (st.elapsed_seconds, st.energy_ws) := by
  unfold accumPhase tickAccum
  by_cases h0 : get_output_state st <;>
    by_cases h1 : st.auto_reset_mode.all = ResetMode.onOutputOn <;>
    by_cases h2 : st.auto_reset_mode.timer = ResetMode.onOutputOn <;>
    by_cases h3 : st.auto_reset_mode.energy = ResetMode.onOutputOn <;>
    by_cases h4 : st.auto_reset_mode.all = ResetMode.onOutputOff <;>
    by_cases h5 : st.auto_reset_mode.timer = ResetMode.onOutputOff <;>
    by_cases h6 : st.auto_reset_mode.energy = ResetMode.onOutputOff <;>
    simp_all [reset_all, reset_timer, reset_energy]

theorem accumPhase_fields (st : UIState) :
    (accumPhase st).output_voltage = st.output_voltage ∧
    (accumPhase st).output_power = st.output_power ∧
    (accumPhase st).voltage_history = st.voltage_history ∧
    (accumPhase st).current_history = st.current_history ∧
    (accumPhase st).auto_reset_mode = st.auto_reset_mode := by
  unfold accumPhase
  by_cases h0 : get_output_state st <;>
    by_cases h1 : st.auto_reset_mode.all = ResetMode.onOutputOn <;>
    by_cases h2 : st.auto_reset_mode.timer = ResetMode.onOutputOn <;>
    by_cases h3 : st.auto_reset_mode.energy = ResetMode.onOutputOn <;>
    by_cases h4 : st.auto_reset_mode.all = ResetMode.onOutputOff <;>
    by_cases h5 : st.auto_reset_mode.timer = ResetMode.onOutputOff <;>
    by_cases h6 : st.auto_reset_mode.energy = ResetMode.onOutputOff <;>
    simp_all [reset_all, reset_timer, reset_energy]

theorem refresh_eq (st : UIState) (v_str i_str : Option String) :
    refresh_measurements st v_str i_str =
      if completes v_str i_str then (true, accumPhase (poweredState st v_str i_str))
      else (false, parsedState st v_str i_str) := by
  unfold refresh_measurements completes poweredState powerOf
  by_cases ht : truthy v_str && truthy i_str
  · cases hi : parseReply i_str with
    | none => simp [ht, hi]
    | some i =>
      have hov := (parsedState_spec st v_str i_str).1
      simp [ht, hi, hov, sampleOf]
  · simp [ht]

theorem poweredState_keeps (st : UIState) (v_str i_str : Option String) :
    (poweredState st v_str i_str).output_voltage
      = (parsedState st v_str i_str).output_voltage ∧
    (poweredState st v_str i_str).voltage_history
      = (parsedState st v_str i_str).voltage_history ∧
    (poweredState st v_str i_str).current_history
      = (parsedState st v_str i_str).current_history ∧
    (poweredState st v_str i_str).elapsed_seconds
      = (parsedState st v_str i_str).elapsed_seconds ∧
    (poweredState st v_str i_str).energy_ws
      = (parsedState st v_str i_str).energy_ws ∧
    (poweredState st v_str i_str).auto_reset_mode
      = (parsedState st v_str i_str).auto_reset_mode ∧
    (poweredState st v_str i_str).output_power = powerOf v_str i_str :=
  ⟨rfl, rfl, rfl, rfl, rfl, rfl, rfl⟩

theorem poweredState_active (st : UIState) (v_str i_str : Option String) :
    get_output_state (poweredState st v_str i_str) = activeOf v_str := by
  unfold get_output_state activeOf
  rw [(poweredState_keeps st v_str i_str).1, (parsedState_spec st v_str i_str).1]

theorem refresh_keeps_mode (st : UIState) (v_str i_str : Option String) :
    (refresh_measurements st v_str i_str).2.auto_reset_mode
      = st.auto_reset_mode := by
  rw [refresh_eq]
  by_cases hc : completes v_str i_str
  · simp only [hc, if_true]
    rw [(accumPhase_fields _).2.2.2.2, (poweredState_keeps st v_str i_str).2.2.2.2.2.1,
      (parsedState_spec st v_str i_str).2.2.2.2.2]
  · simp only [hc, Bool.false_eq_true, if_false]
    exact (parsedState_spec st v_str i_str).2.2.2.2.2

theorem refresh_accums (st : UIState) (v_str i_str : Option String) :
    ((refresh_measurements st v_str i_str).2.elapsed_seconds,
     (refresh_measurements st v_str i_str).2.energy_ws)
      = if completes v_str i_str then
          tickAccum st.auto_reset_mode (activeOf v_str) (powerOf v_str i_str)
            (st.elapsed_seconds, st.energy_ws)
        else (st.elapsed_seconds, st.energy_ws) := by
  rw [refresh_eq]
  by_cases hc : completes v_str i_str
  · simp only [hc, if_true]
    rw [accumPhase_accum, poweredState_active,
      (poweredState_keeps st v_str i_str).2.2.2.2.2.1,
      (parsedState_spec st v_str i_str).2.2.2.2.2,
      (poweredState_keeps st v_str i_str).2.2.2.1,
      (parsedState_spec st v_str i_str).2.2.2.1,
      (poweredState_keeps st v_str i_str).2.2.2.2.1,
      (parsedState_spec st v_str i_str).2.2.2.2.1,
      (poweredState_keeps st v_str i_str).2.2.2.2.2.2]
  · simp only [hc, Bool.false_eq_true, if_false]
    rw [(parsedState_spec st v_str i_str).2.2.2.1,
      (parsedState_spec st v_str i_str).2.2.2.2.1]

theorem refresh_histories (st : UIState) (v_str i_str : Option String) :
    (refresh_measurements st v_str i_str).2.voltage_history
      = pushHist st.voltage_history (sampleOf v_str) ∧
    (refresh_measurements st v_str i_str).2.current_history
      = pushHist st.current_history (sampleOf i_str) := by
  rw [refresh_eq]
  by_cases hc : completes v_str i_str
  · simp only [hc, if_true]
    constructor
    · rw [(accumPhase_fields _).2.2.1, (poweredState_keeps st v_str i_str).2.1,
        (parsedState_spec st v_str i_str).2.1]
    · rw [(accumPhase_fields _).2.2.2.1, (poweredState_keeps st v_str i_str).2.2.1,
        (parsedState_spec st v_str i_str).2.2.1]
  · simp only [hc, Bool.false_eq_true, if_false]
    exact ⟨(parsedState_spec st v_str i_str).2.1, (parsedState_spec st v_str i_str).2.2.1⟩

theorem pushHist_length_le (h : List ℚ) (x : ℚ) : (pushHist h x).length ≤ 100 := by
  unfold pushHist
  by_cases hl : 100 < (h ++ [x]).length
  · simp only [hl, if_true, List.length_drop]
    omega
  · simp only [hl, if_false]
    omega

theorem pushHist_full (h : List ℚ) (x : ℚ) (hl : h.length = 100) :
    pushHist h x = h.tail ++ [x] := by
  unfold pushHist
  have hlen : (h ++ [x]).length = 101 := by simp [hl]
  rw [if_pos (by omega), hlen]
  norm_num
  cases h with
  | nil => simp at hl
  | cons a t => simp

theorem run_nil (st : UIState) : run st [] = st := rfl

theorem run_cons (st : UIState) (e : Ev) (evs : List Ev) :
    run st (e :: evs) = run (step st e) evs := rfl

theorem refresh_fst (st : UIState) (v_str i_str : Option String) :
    (refresh_measurements st v_str i_str).1 = completes v_str i_str := by
  rw [refresh_eq]
  by_cases h : completes v_str i_str <;> simp [h]

theorem refresh_snd_completes (st : UIState) {v_str i_str : Option String}
    (h : completes v_str i_str = true) :
    (refresh_measurements st v_str i_str).2
      = accumPhase (poweredState st v_str i_str) := by
  rw [refresh_eq, h]
  simp

theorem refresh_accums_completes (st : UIState) {v_str i_str : Option String}
    (h : completes v_str i_str = true) :
    ((refresh_measurements st v_str i_str).2.elapsed_seconds,
     (refresh_measurements st v_str i_str).2.energy_ws)
      = tickAccum st.auto_reset_mode (activeOf v_str) (powerOf v_str i_str)
          (st.elapsed_seconds, st.energy_ws) := by
  have hr := refresh_accums st v_str i_str
  rw [h] at hr
  simpa using hr

theorem refresh_accums_aborts (st : UIState) {v_str i_str : Option String}
    (h : completes v_str i_str = false) :
    (refresh_measurements st v_str i_str).2.elapsed_seconds = st.elapsed_seconds ∧
    (refresh_measurements st v_str i_str).2.energy_ws = st.energy_ws := by
  have hr := refresh_accums st v_str i_str
  rw [h] at hr
  simp only [Bool.false_eq_true, if_false] at hr
  exact ⟨congrArg Prod.fst hr, congrArg Prod.snd hr⟩

theorem tickAccum_off_all {pol : ResetPolicy} {power : ℚ} {a : ℤ × ℚ}
    (h : pol.all = ResetMode.onOutputOff) :
    tickAccum pol false power a = (0, 0) := by
  unfold tickAccum
  by_cases h5 : pol.timer = ResetMode.onOutputOff <;>
    by_cases h6 : pol.energy = ResetMode.onOutputOff <;>
    simp [h, h5, h6]

theorem tickAccum_off_timer {pol : ResetPolicy} {power : ℚ} {a : ℤ × ℚ}
    (h : pol.timer = ResetMode.onOutputOff) :
    (tickAccum pol false power a).1 = 0 := by
  unfold tickAccum
  by_cases h4 : pol.all = ResetMode.onOutputOff <;>
    by_cases h6 : pol.energy = ResetMode.onOutputOff <;>
    simp [h, h4, h6]

theorem tickAccum_off_energy {pol : ResetPolicy} {power : ℚ} {a : ℤ × ℚ}
    (h : pol.energy = ResetMode.onOutputOff) :
    (tickAccum pol false power a).2 = 0 := by
  unfold tickAccum
  by_cases h4 : pol.all = ResetMode.onOutputOff <;>
    by_cases h5 : pol.timer = ResetMode.onOutputOff <;>
    simp [h, h4, h5]

theorem tickAccum_active_noOn {pol : ResetPolicy} {power : ℚ} {a : ℤ × ℚ}
    (h : noOnResets pol) :
    tickAccum pol true power a = (a.1 + 1, a.2 + power) := by
  obtain ⟨h1, h2, h3⟩ := h
  unfold tickAccum
  simp [h1, h2, h3]

theorem tickAccum_inactive_keep_elapsed {pol : ResetPolicy} {power : ℚ} {a : ℤ × ℚ}
    (h1 : pol.all ≠ ResetMode.onOutputOff) (h2 : pol.timer ≠ ResetMode.onOutputOff) :
    (tickAccum pol false power a).1 = a.1 := by
  unfold tickAccum
  by_cases h6 : pol.energy = ResetMode.onOutputOff <;> simp [h1, h2, h6]

theorem tickAccum_nonneg (pol : ResetPolicy) (active : Bool) (power : ℚ) (a : ℤ × ℚ)
    (h1 : 0 ≤ a.1) (h2 : 0 ≤ a.2) (hp : active = true → 0 ≤ power) :
    0 ≤ (tickAccum pol active power a).1 ∧ 0 ≤ (tickAccum pol active power a).2 := by
  cases active with
  | false =>
    unfold tickAccum
    by_cases h4 : pol.all = ResetMode.onOutputOff <;>
      by_cases h5 : pol.timer = ResetMode.onOutputOff <;>
      by_cases h6 : pol.energy = ResetMode.onOutputOff <;>
      simp [h4, h5, h6] <;>
      first
        | exact ⟨h1, h2⟩
        | exact h1
        | exact h2
  | true =>
    have hpow := hp rfl
    have hsum : (0:ℚ) ≤ a.2 + power := add_nonneg h2 hpow
    have hel : (0:ℤ) ≤ a.1 + 1 := by omega
    unfold tickAccum
    by_cases h4 : pol.all = ResetMode.onOutputOn <;>
      by_cases h5 : pol.timer = ResetMode.onOutputOn <;>
      by_cases h6 : pol.energy = ResetMode.onOutputOn <;>
      simp [h4, h5, h6] <;>
      first
        | exact ⟨hel, hsum⟩
        | exact hel
        | exact hsum

theorem tick_completes_of_parsed {v_str i_str : Option String} {v i : ℚ}
    (hv : parseReply v_str = some v) (hi : parseReply i_str = some i) :
    completes v_str i_str = true ∧
    activeOf v_str = decide ((0.5 : ℚ) < v) ∧
    powerOf v_str i_str = v * i := by
  have htv := truthy_of_parse hv
  have hti := truthy_of_parse hi
  refine ⟨?_, ?_, ?_⟩
  · unfold completes
    rw [htv, hti, hi]
    rfl
  · unfold activeOf sampleOf
    rw [hv]
    rfl
  · unfold powerOf sampleOf
    rw [htv, hti, hv, hi]
    simp

theorem step_nonneg (st : UIState) (e : Ev)
    (h1 : 0 ≤ st.elapsed_seconds) (h2 : 0 ≤ st.energy_ws)
    (he : nonnegCurrentEv e = true) :
    0 ≤ (step st e).elapsed_seconds ∧ 0 ≤ (step st e).energy_ws := by
  cases e with
  | tick v_str i_str =>
    have hnn : (0:ℚ) ≤ sampleOf i_str := by
      simpa [nonnegCurrentEv] using he
    show 0 ≤ (refresh_measurements st v_str i_str).2.elapsed_seconds ∧
      0 ≤ (refresh_measurements st v_str i_str).2.energy_ws
    by_cases hc : completes v_str i_str
    · have hpair := refresh_accums_completes st hc
      have hp : activeOf v_str = true → 0 ≤ powerOf v_str i_str := by
        intro hact
        have hvpos : (0:ℚ) < sampleOf v_str := by
          have : (0.5 : ℚ) < sampleOf v_str := by
            have := of_decide_eq_true (by simpa [activeOf] using hact)
            exact this
          linarith
        unfold powerOf
        by_cases ht : truthy v_str && truthy i_str
        · simp only [ht, if_true]
          exact mul_nonneg (le_of_lt hvpos) hnn
        · simp [ht]
      have := tickAccum_nonneg st.auto_reset_mode (activeOf v_str)
        (powerOf v_str i_str) (st.elapsed_seconds, st.energy_ws) h1 h2 hp
      rw [← hpair] at this
      exact this
    · have habort := refresh_accums_aborts st (by simpa using hc)
      rw [habort.1, habort.2]
      exact ⟨h1, h2⟩
  | resetTimerBtn => exact ⟨le_refl 0, h2⟩
  | resetEnergyBtn => exact ⟨h1, le_refl 0⟩
  | resetAllBtn => exact ⟨le_refl 0, le_refl 0⟩
  | setMode k m => cases k <;> exact ⟨h1, h2⟩

/-! Claim theorems. -/

/-- C4: over every event sequence from the initial state, both history
buffers always have length at most 100; every tick appends exactly one
sample to each buffer, namely the parsed float or 0 on parse failure (this
holds for aborting ticks too, since the appends happen before the power
line); and a buffer at capacity evicts its oldest element first. -/
theorem c4_history_bounded_fifo :
    (∀ (pol : ResetPolicy) (evs : List Ev),
        (run (initState pol) evs).voltage_history.length ≤ 100 ∧
        (run (initState pol) evs).current_history.length ≤ 100) ∧
    (∀ (st : UIState) (v_str i_str : Option String),
        (refresh_measurements st v_str i_str).2.voltage_history
          = pushHist st.voltage_history (sampleOf v_str) ∧
        (refresh_measurements st v_str i_str).2.current_history
          = pushHist st.current_history (sampleOf i_str)) ∧
    (∀ (h : List ℚ) (x : ℚ), h.length = 100 → pushHist h x = h.tail ++ [x]) := by
  refine ⟨?_, fun st v i => refresh_histories st v i,
    fun h x hl => pushHist_full h x hl⟩
  have hInv : ∀ (evs : List Ev) (st : UIState),
      st.voltage_history.length ≤ 100 → st.current_history.length ≤ 100 →
      (run st evs).voltage_history.length ≤ 100 ∧
        (run st evs).current_history.length ≤ 100 := by
    intro evs
    induction evs with
    | nil => intro st h1 h2; exact ⟨h1, h2⟩
    | cons e rest ih =>
      intro st h1 h2
      rw [run_cons]
      apply ih
      · cases e with
        | tick v_str i_str =>
            show (refresh_measurements st v_str i_str).2.voltage_history.length ≤ 100
            rw [(refresh_histories st v_str i_str).1]
            exact pushHist_length_le _ _
        | resetTimerBtn => exact h1
        | resetEnergyBtn => exact h1
        | resetAllBtn => exact h1
        | setMode k m => cases k <;> exact h1
      · cases e with
        | tick v_str i_str =>
            show (refresh_measurements st v_str i_str).2.current_history.length ≤ 100
            rw [(refresh_histories st v_str i_str).2]
            exact pushHist_length_le _ _
        | resetTimerBtn => exact h2
        | resetEnergyBtn => exact h2
        | resetAllBtn => exact h2
        | setMode k m => cases k <;> exact h2
  intro pol evs
  exact hInv evs (initState pol) (by simp [initState]) (by simp [initState])

/-- Witness for C4 at a concrete full buffer. -/
theorem c4_history_bounded_fifo_witness :
    pushHist (List.replicate 100 (7 : ℚ)) 5
      = (List.replicate 100 (7 : ℚ)).tail ++ [5] :=
  c4_history_bounded_fifo.2.2 (List.replicate 100 (7 : ℚ)) 5 (by simp)

/-- C7: send_command returns None whenever the connection is absent, not
open, or any of the reset/write/read steps raises — every failure collapses
to the same None result — and every execution that appends to the write log
has first cleared the stale input queued on the transport; on the
fault-free path the command line goes out newline-terminated after the
clear, and the stripped reply is returned. -/
theorem c7_send_command_collapse :
    (∀ cmd, send_command none cmd = (none, none)) ∧
    (∀ (c : Conn) cmd, c.isOpen = false → (send_command (some c) cmd).1 = none) ∧
    (∀ (c : Conn) cmd, c.resetRaises = true → (send_command (some c) cmd).1 = none) ∧
    (∀ (c : Conn) cmd, c.writeRaises = true → (send_command (some c) cmd).1 = none) ∧
    (∀ (c : Conn) cmd, c.readRaises = true → (send_command (some c) cmd).1 = none) ∧
    (∀ (c c2 : Conn) cmd, (send_command (some c) cmd).2 = some c2 →
        c2.written ≠ c.written → c2.pend = []) ∧
    (∀ (c : Conn) cmd, c.isOpen = true → c.resetRaises = false →
        c.writeRaises = false → c.readRaises = false →
        send_command (some c) cmd
          = (some (stripStr c.reply),
             some { c with pend := [], written := c.written ++ [cmd ++ "\n"] })) := by
  refine ⟨fun cmd => rfl, ?_, ?_, ?_, ?_, ?_, ?_⟩
  · intro c cmd h; simp [send_command, h]
  · intro c cmd h
    by_cases h1 : c.isOpen <;> simp [send_command, h, h1]
  · intro c cmd h
    by_cases h1 : c.isOpen <;> by_cases h2 : c.resetRaises <;>
      simp [send_command, h, h1, h2]
  · intro c cmd h
    by_cases h1 : c.isOpen <;> by_cases h2 : c.resetRaises <;>
      by_cases h3 : c.writeRaises <;> simp_all [send_command]
  · intro c c2 cmd hsnd hwr
    by_cases h1 : c.isOpen <;> by_cases h2 : c.resetRaises <;>
      by_cases h3 : c.writeRaises <;> by_cases h4 : c.readRaises <;>
      simp_all [send_command] <;> rw [← hsnd]
  · intro c cmd h1 h2 h3 h4
    simp [send_command, h1, h2, h3, h4]

/-- Witness for C7: a closed connection yields None; the fault-free call
clears the stale input, writes the framed command and returns the reply. -/
theorem c7_send_command_collapse_witness :
    (send_command (some closedConn) "voltage 5").1 = none ∧
    send_command (some faultFreeConn) "measure:voltage?"
      = (some "OK",
         some { faultFreeConn with pend := [], written := ["measure:voltage?\n"] }) := by
  constructor
  · exact c7_send_command_collapse.2.1 closedConn "voltage 5" (by decide)
  · exact (c7_send_command_collapse.2.2.2.2.2.2 faultFreeConn "measure:voltage?"
      (by decide) (by decide) (by decide) (by decide)).trans (by decide)

/-- C8: disconnect is idempotent on the session state, and calling it while
already disconnected leaves the transport handle absent and raises no
error (the model is a total function). -/
theorem c8_disconnect_idempotent (s : Session) :
    disconnect (disconnect s) = disconnect s ∧
    (s.serial_conn = none → (disconnect s).serial_conn = none) :=
  ⟨rfl, fun _ => rfl⟩

/-- Witness for C8 at a concrete already-disconnected session. -/
theorem c8_disconnect_idempotent_witness :
    (disconnect { port := "COM3", serial_conn := none, onEnabled := false,
                  offEnabled := false, statusGreen := false }).serial_conn = none :=
  (c8_disconnect_idempotent
    { port := "COM3", serial_conn := none, onEnabled := false,
      offEnabled := false, statusGreen := false }).2 rfl

/-- Counterexample to C5 as stated: in UI-v3.py the setpoint callbacks do
not validate.  The entry text abc does not parse as a number, yet
set_voltage hands the command line to send_command, and on an open
connection the command is written to the transport. -/
theorem c5_counterexample :
    pyFloat "abc" = none ∧
    UIv3_set_voltage "abc" = some "voltage abc" ∧
    (send_command (some faultFreeConn) "voltage abc").2
      = some { faultFreeConn with pend := [], written := ["voltage abc\n"] } := by
  decide

/-- C5 (amended): the set_voltage/set_current callbacks of UI.py validate
that the entry text parses as a float and silently drop it otherwise — no
command line is produced; when it parses they send `voltage {text}` /
`current {text}`.  The UI-v3.py callbacks perform no validation and always
produce the command line with the raw entry text. -/
theorem c5_setpoint_validation (value : String) :
    (pyFloat value = none →
        UIpy_set_voltage value = none ∧ UIpy_set_current value = none) ∧
    (pyFloat value ≠ none →
        UIpy_set_voltage value = some ("voltage " ++ value) ∧
        UIpy_set_current value = some ("current " ++ value)) ∧
    UIv3_set_voltage value = some ("voltage " ++ value) ∧
    UIv3_set_current value = some ("current " ++ value) := by
  unfold UIpy_set_voltage UIpy_set_current UIv3_set_voltage UIv3_set_current
  cases h : pyFloat value <;> simp [h]

/-- Witness for C5 at a non-numeric and a numeric entry text. -/
theorem c5_setpoint_validation_witness :
    (UIpy_set_voltage "oops" = none ∧ UIpy_set_current "oops" = none) ∧
    (UIpy_set_voltage "2.5" = some "voltage 2.5" ∧
     UIpy_set_current "2.5" = some "current 2.5") :=
  ⟨(c5_setpoint_validation "oops").1 (by decide),
   (c5_setpoint_validation "2.5").2.1 (by decide)⟩

/-- C6 shows a code bug: with a parsed voltage reply and a non-empty,
non-numeric current reply, the current branch records 0 and marks the
channel unavailable as claimed, but the tick then aborts at the power line
(UnboundLocalError on i in UI-v3 line 276) instead of completing — the
sibling files wrap this computation in try/except. -/
theorem c6_tick_crash :
    pyFloat "x" = none ∧
    truthy (some "x") = true ∧
    (refresh_measurements (initState defaultResetPolicy)
        (some "5.0") (some "x")).2.current_history = [0] ∧
    (refresh_measurements (initState defaultResetPolicy)
        (some "5.0") (some "x")).2.meas_current_text = none ∧
    (refresh_measurements (initState defaultResetPolicy)
        (some "5.0") (some "x")).1 = false := by
  decide

/-- C1: with output-active true and the gate idle, a first load request
leaves both entries unchanged, issues no commands and moves the gate stage
to 1 (awaiting confirmation); a second request with any preset — and
likewise any request while output-active is false — writes that preset's
values into the entries, issues the voltage and current set commands and
returns the stage to 0. -/
theorem c1_preset_two_step (st : UIState) (p p2 : Preset)
    (hA : get_output_state st = true) (hI : st.preset_click_stage = 0) :
    ((load_selected_preset st (some p)).1.voltage_entry = st.voltage_entry ∧
     (load_selected_preset st (some p)).1.current_entry = st.current_entry ∧
     (load_selected_preset st (some p)).2 = [] ∧
     (load_selected_preset st (some p)).1.preset_click_stage = 1) ∧
    ((load_selected_preset (load_selected_preset st (some p)).1 (some p2)).1.voltage_entry
        = p2.voltage ∧
     (load_selected_preset (load_selected_preset st (some p)).1 (some p2)).1.current_entry
        = p2.current ∧
     (load_selected_preset (load_selected_preset st (some p)).1 (some p2)).2
        = [Cmd.voltage p2.voltage, Cmd.current p2.current] ∧
     (load_selected_preset (load_selected_preset st (some p)).1 (some p2)).1.preset_click_stage
        = 0) ∧
    (∀ st2 : UIState, get_output_state st2 = false →
     (load_selected_preset st2 (some p2)).1.voltage_entry = p2.voltage ∧
     (load_selected_preset st2 (some p2)).1.current_entry = p2.current ∧
     (load_selected_preset st2 (some p2)).2
        = [Cmd.voltage p2.voltage, Cmd.current p2.current] ∧
     (load_selected_preset st2 (some p2)).1.preset_click_stage = 0) := by
  have hfirst : load_selected_preset st (some p)
      = ({ st with load_button_red := true, preset_click_stage := 1 }, []) := by
    simp [load_selected_preset, hA, hI]
  refine ⟨?_, ?_, ?_⟩
  · rw [hfirst]
    exact ⟨rfl, rfl, rfl, rfl⟩
  · rw [hfirst]
    simp [load_selected_preset]
  · intro st2 h2
    simp [load_selected_preset, h2]

/-- Witness for C1 at a concrete active idle state and two presets. -/
theorem c1_preset_two_step_witness :
    (load_selected_preset presetIdleActiveSt (some presetA)).2 = [] ∧
    (load_selected_preset presetIdleActiveSt (some presetA)).1.preset_click_stage = 1 ∧
    (load_selected_preset
        (load_selected_preset presetIdleActiveSt (some presetA)).1 (some presetB)).2
      = [Cmd.voltage presetB.voltage, Cmd.current presetB.current] := by
  have h := c1_preset_two_step presetIdleActiveSt presetA presetB (by decide) (by decide)
  exact ⟨h.1.2.2.1, h.1.2.2.2, h.2.1.2.2.1⟩

/-- Counterexample to C3 as stated: after an active tick (accumulators 1
and 5), a tick whose voltage and current replies are both non-empty and
unparseable is inactive (output_voltage forced to 0) with the all mode set
to reset on output off, yet it aborts at the power line before the reset
code runs, so the accumulators are not 0 at the end of that tick. -/
theorem c3_counterexample :
    polAllOff.all = ResetMode.onOutputOff ∧
    activeOf (some "x") = false ∧
    (run (initState polAllOff)
      [Ev.tick (some "5.0") (some "1.0"),
       Ev.tick (some "x") (some "y")]).output_voltage = 0 ∧
    (run (initState polAllOff)
      [Ev.tick (some "5.0") (some "1.0"),
       Ev.tick (some "x") (some "y")]).elapsed_seconds = 1 ∧
    (run (initState polAllOff)
      [Ev.tick (some "5.0") (some "1.0"),
       Ev.tick (some "x") (some "y")]).energy_ws = 5 := by
  decide

/-- C3 (amended): on every tick that runs to completion with output-active
false and the all mode set to reset on output off, both accumulators are 0
at the end of the tick — with no hypothesis on the previous tick's output
state, so the reset re-fires every tick the condition persists, not only on
the transition (a tick aborts exactly when both replies are non-empty and
the current reply fails to parse; then the reset code is skipped);
moreover the accumulation phase equals the pass that applies the reset
targets in the order all, timer, energy. -/
theorem c3_reset_policy :
    (∀ (st : UIState) (v_str i_str : Option String),
        activeOf v_str = false →
        st.auto_reset_mode.all = ResetMode.onOutputOff →
        completes v_str i_str = true →
        (refresh_measurements st v_str i_str).2.elapsed_seconds = 0 ∧
        (refresh_measurements st v_str i_str).2.energy_ws = 0) ∧
    (∀ st2 : UIState, accumPhase st2 =
        if get_output_state st2 then
          applyResetsInOrder ResetMode.onOutputOn
            { st2 with elapsed_seconds := st2.elapsed_seconds + 1,
                       energy_ws := st2.energy_ws + st2.output_power }
        else applyResetsInOrder ResetMode.onOutputOff st2) := by
  constructor
  · intro st v_str i_str hInact hAll hComp
    have hpair := refresh_accums_completes st hComp
    rw [hInact, tickAccum_off_all hAll] at hpair
    exact ⟨congrArg Prod.fst hpair, congrArg Prod.snd hpair⟩
  · intro st2
    by_cases h0 : get_output_state st2 <;>
      cases hall : st2.auto_reset_mode.all <;>
      cases htm : st2.auto_reset_mode.timer <;>
      cases hen : st2.auto_reset_mode.energy <;>
      simp_all [accumPhase, applyResetsInOrder, modeFor, resetFor,
        reset_all, reset_timer, reset_energy]

/-- Witness for C3 at the spec's low-voltage scenario with the all mode set
to reset on output off. -/
theorem c3_reset_policy_witness :
    (refresh_measurements
      { initState polAllOff with elapsed_seconds := 41, energy_ws := 7 }
      (some "0.2") (some "1.0")).2.elapsed_seconds = 0 ∧
    (refresh_measurements
      { initState polAllOff with elapsed_seconds := 41, energy_ws := 7 }
      (some "0.2") (some "1.0")).2.energy_ws = 0 :=
  c3_reset_policy.1
    { initState polAllOff with elapsed_seconds := 41, energy_ws := 7 }
    (some "0.2") (some "1.0") (by decide) (by decide) (by decide)

/-- Counterexample to C10 as stated: a garbled voltage reply does force
output_voltage to 0, but when the current reply is also non-empty and
unparseable the tick aborts before the reset policy runs, so the timer
accumulator with mode reset-on-output-off is not zeroed on that tick. -/
theorem c10_counterexample :
    parseReply (some "x") = none ∧
    polTimerOff.timer = ResetMode.onOutputOff ∧
    (run (initState polTimerOff)
      [Ev.tick (some "2.0") (some "1.5"),
       Ev.tick (some "x") (some "y")]).output_voltage = 0 ∧
    (run (initState polTimerOff)
      [Ev.tick (some "2.0") (some "1.5"),
       Ev.tick (some "x") (some "y")]).elapsed_seconds = 1 := by
  decide

/-- C10 (amended): on every completing tick whose measure:voltage? reply is
absent or fails to parse, the stored output voltage is forced to 0, hence
output-active is false for that tick regardless of the supply's true state,
and every accumulator whose mode is reset-on-output-off is zeroed on that
tick (a tick with a garbled voltage reply aborts instead, leaving the
accumulators untouched, exactly when the current reply is non-empty and
unparseable). -/
theorem c10_voltage_parse_failure (st : UIState) (v_str i_str : Option String)
    (hv : parseReply v_str = none)
    (hComp : completes v_str i_str = true) :
    (refresh_measurements st v_str i_str).2.output_voltage = 0 ∧
    get_output_state (refresh_measurements st v_str i_str).2 = false ∧
    (st.auto_reset_mode.all = ResetMode.onOutputOff →
        (refresh_measurements st v_str i_str).2.elapsed_seconds = 0 ∧
        (refresh_measurements st v_str i_str).2.energy_ws = 0) ∧
    (st.auto_reset_mode.timer = ResetMode.onOutputOff →
        (refresh_measurements st v_str i_str).2.elapsed_seconds = 0) ∧
    (st.auto_reset_mode.energy = ResetMode.onOutputOff →
        (refresh_measurements st v_str i_str).2.energy_ws = 0) := by
  have hsamp : sampleOf v_str = 0 := by simp [sampleOf, hv]
  have hact : activeOf v_str = false := by
    unfold activeOf
    rw [hsamp]
    decide
  have hov : (refresh_measurements st v_str i_str).2.output_voltage = 0 := by
    rw [refresh_snd_completes st hComp, (accumPhase_fields _).1,
      (poweredState_keeps st v_str i_str).1, (parsedState_spec st v_str i_str).1, hsamp]
  have hpair := refresh_accums_completes st hComp
  rw [hact] at hpair
  refine ⟨hov, ?_, ?_, ?_, ?_⟩
  · unfold get_output_state
    rw [hov]
    decide
  · intro hAll
    rw [tickAccum_off_all hAll] at hpair
    exact ⟨congrArg Prod.fst hpair, congrArg Prod.snd hpair⟩
  · intro hTimer
    have := congrArg Prod.fst hpair
    rw [tickAccum_off_timer hTimer] at this
    exact this
  · intro hEnergy
    have := congrArg Prod.snd hpair
    rw [tickAccum_off_energy hEnergy] at this
    exact this

/-- Witness for C10 at a garbled voltage reply with a parseable current
reply, from a state with nonzero accumulators and the timer mode set to
reset on output off. -/
theorem c10_voltage_parse_failure_witness :
    (refresh_measurements c10St (some "garbage") (some "1.5")).2.output_voltage = 0 ∧
    (refresh_measurements c10St (some "garbage") (some "1.5")).2.elapsed_seconds = 0 := by
  have h := c10_voltage_parse_failure c10St (some "garbage") (some "1.5")
    (by decide) (by decide)
  exact ⟨h.1, h.2.2.2.1 (by decide)⟩

theorem tick_active_effect (st : UIState) {v_str i_str : Option String} {v i : ℚ}
    (hv : parseReply v_str = some v) (hi : parseReply i_str = some i)
    (hgt : (0.5 : ℚ) < v) (hno : noOnResets st.auto_reset_mode) :
    (refresh_measurements st v_str i_str).1 = true ∧
    (refresh_measurements st v_str i_str).2.elapsed_seconds
      = st.elapsed_seconds + 1 ∧
    (refresh_measurements st v_str i_str).2.energy_ws = st.energy_ws + v * i := by
  obtain ⟨hcomp, hactEq, hpow⟩ := tick_completes_of_parsed hv hi
  have hact : activeOf v_str = true := by
    rw [hactEq]
    exact decide_eq_true hgt
  have hpair := refresh_accums_completes st hcomp
  rw [hact, hpow, tickAccum_active_noOn hno] at hpair
  exact ⟨(refresh_fst st v_str i_str).trans hcomp,
    congrArg Prod.fst hpair, congrArg Prod.snd hpair⟩

/-- Counterexample to C2 as stated: a tick whose voltage reply parses above
the threshold (output-active true, as the stored output voltage shows) with
every reset mode set to no reset, but whose current reply is non-empty and
unparseable, aborts at the power line: elapsed_seconds does not increase by
1, it stays 0. -/
theorem c2_counterexample :
    polNone.all = ResetMode.noReset ∧
    polNone.timer = ResetMode.noReset ∧
    polNone.energy = ResetMode.noReset ∧
    get_output_state (refresh_measurements (initState polNone)
        (some "5.0") (some "x")).2 = true ∧
    (refresh_measurements (initState polNone)
        (some "5.0") (some "x")).2.elapsed_seconds = 0 := by
  decide

/-- C2 (amended): on every tick whose two replies both parse, with the
voltage above the threshold and no reset mode firing, elapsed_seconds grows
by exactly 1 and energy_ws by exactly voltage times current (a tick whose
current reply is non-empty and unparseable instead aborts, leaving the
accumulators unchanged); over N consecutive such active ticks energy_ws
grows by the sum of the per-tick products; and on every tick where
output-active is false, elapsed_seconds is unchanged absent an all/timer
reset-on-output-off firing. -/
theorem c2_energy_accumulation :
    (∀ (st : UIState) (v_str i_str : Option String) (v i : ℚ),
        parseReply v_str = some v → parseReply i_str = some i →
        (0.5 : ℚ) < v → noOnResets st.auto_reset_mode →
        (refresh_measurements st v_str i_str).1 = true ∧
        (refresh_measurements st v_str i_str).2.elapsed_seconds
          = st.elapsed_seconds + 1 ∧
        (refresh_measurements st v_str i_str).2.energy_ws
          = st.energy_ws + v * i) ∧
    (∀ (st : UIState) (reps : List (Option String × Option String)),
        (∀ r ∈ reps, (parseReply r.1).isSome = true ∧
            (parseReply r.2).isSome = true ∧ (0.5 : ℚ) < sampleOf r.1) →
        noOnResets st.auto_reset_mode →
        (run st (reps.map (fun r => Ev.tick r.1 r.2))).energy_ws
          = st.energy_ws + powerSum reps) ∧
    (∀ (st : UIState) (v_str i_str : Option String),
        activeOf v_str = false →
        st.auto_reset_mode.all ≠ ResetMode.onOutputOff →
        st.auto_reset_mode.timer ≠ ResetMode.onOutputOff →
        (refresh_measurements st v_str i_str).2.elapsed_seconds
          = st.elapsed_seconds) := by
  refine ⟨fun st v_str i_str v i hv hi hgt hno => tick_active_effect st hv hi hgt hno,
    ?_, ?_⟩
  · intro st reps
    induction reps generalizing st with
    | nil =>
      intro _ _
      simp [powerSum, run_nil]
    | cons r rest ih =>
      intro hall hno
      obtain ⟨h1, h2, h3⟩ := hall r (List.mem_cons_self r rest)
      obtain ⟨v, hv⟩ := Option.isSome_iff_exists.mp h1
      obtain ⟨i, hi⟩ := Option.isSome_iff_exists.mp h2
      have hsv : sampleOf r.1 = v := by simp [sampleOf, hv]
      have hsi : sampleOf r.2 = i := by simp [sampleOf, hi]
      have hgt : (0.5 : ℚ) < v := hsv ▸ h3
      have htick := tick_active_effect st hv hi hgt hno
      rw [List.map_cons, run_cons,
        show step st (Ev.tick r.1 r.2) = (refresh_measurements st r.1 r.2).2 from rfl]
      have hnoNext : noOnResets (refresh_measurements st r.1 r.2).2.auto_reset_mode := by
        rw [refresh_keeps_mode]
        exact hno
      rw [ih (refresh_measurements st r.1 r.2).2
        (fun x hx => hall x (List.mem_cons_of_mem r hx)) hnoNext]
      have hps : powerSum (r :: rest)
          = sampleOf r.1 * sampleOf r.2 + powerSum rest := by
        simp [powerSum]
      rw [htick.2.2, hps, hsv, hsi]
      ring
  · intro st v_str i_str hact hAll hTimer
    by_cases hc : completes v_str i_str
    · have hpair := refresh_accums_completes st hc
      rw [hact] at hpair
      have hfst := congrArg Prod.fst hpair
      rw [tickAccum_inactive_keep_elapsed hAll hTimer] at hfst
      exact hfst
    · exact (refresh_accums_aborts st (by simpa using hc)).1

/-- Witness for C2: the spec's 5.0 V 1.0 A scenario, a two-tick energy sum,
and the low-voltage inactive tick. -/
theorem c2_energy_accumulation_witness :
    (refresh_measurements (initState polNone)
        (some "5.0") (some "1.0")).2.elapsed_seconds = 1 ∧
    (refresh_measurements (initState polNone)
        (some "5.0") (some "1.0")).2.energy_ws = 5 ∧
    (run (initState polNone)
      [Ev.tick (some "5.0") (some "1.0"),
       Ev.tick (some "3.0") (some "2.0")]).energy_ws = 11 ∧
    (refresh_measurements (initState polNone)
        (some "0.2") (some "1.0")).2.elapsed_seconds = 0 := by
  have h1 := c2_energy_accumulation.1 (initState polNone) (some "5.0") (some "1.0")
    5 1 (by decide) (by decide) (by decide) (by decide)
  have h2 := c2_energy_accumulation.2.1 (initState polNone)
    [(some "5.0", some "1.0"), (some "3.0", some "2.0")] (by decide) (by decide)
  have h3 := c2_energy_accumulation.2.2 (initState polNone) (some "0.2") (some "1.0")
    (by decide) (by decide) (by decide)
  exact ⟨h1.2.1.trans (by decide), h1.2.2.trans (by decide),
    h2.trans (by decide), h3.trans (by decide)⟩

/-- Counterexample to C9 as stated: one tick with a parsed voltage of 5.0
(active) and a parsed current of -1.0, from the initial state under the
default reset policy, drives energy_ws to -5, violating energy ≥ 0. -/
theorem c9_counterexample :
    (run (initState defaultResetPolicy)
      [Ev.tick (some "5.0") (some "-1.0")]).energy_ws = -5 ∧
    (run (initState defaultResetPolicy)
      [Ev.tick (some "5.0") (some "-1.0")]).energy_ws < 0 := by
  decide

/-- C9 (amended): under every sequence of ticks, manual resets and
reset-mode changes in which each tick's recorded current sample is
nonnegative, the accumulators satisfy elapsed_seconds ≥ 0 and energy_ws ≥ 0
(a negative parsed current on an active tick can drive energy_ws negative);
and each tick applies to the accumulator pair a single update determined by
the reset policy, the inferred output state and this tick's power — or no
update at all when the tick aborts. -/
theorem c9_accumulator (pol : ResetPolicy) (evs : List Ev)
    (h : ∀ e ∈ evs, nonnegCurrentEv e = true) :
    0 ≤ (run (initState pol) evs).elapsed_seconds ∧
    0 ≤ (run (initState pol) evs).energy_ws ∧
    (∀ (st : UIState) (v_str i_str : Option String),
        ((refresh_measurements st v_str i_str).2.elapsed_seconds,
         (refresh_measurements st v_str i_str).2.energy_ws)
          = if completes v_str i_str then
              tickAccum st.auto_reset_mode (activeOf v_str) (powerOf v_str i_str)
                (st.elapsed_seconds, st.energy_ws)
            else (st.elapsed_seconds, st.energy_ws)) := by
  have main : ∀ (l : List Ev) (st : UIState),
      0 ≤ st.elapsed_seconds → 0 ≤ st.energy_ws →
      (∀ e ∈ l, nonnegCurrentEv e = true) →
      0 ≤ (run st l).elapsed_seconds ∧ 0 ≤ (run st l).energy_ws := by
    intro l
    induction l with
    | nil => intro st h1 h2 _; exact ⟨h1, h2⟩
    | cons e rest ih =>
      intro st h1 h2 hall
      rw [run_cons]
      obtain ⟨g1, g2⟩ := step_nonneg st e h1 h2 (hall e (List.mem_cons_self e rest))
      exact ih (step st e) g1 g2 (fun x hx => hall x (List.mem_cons_of_mem e hx))
  obtain ⟨m1, m2⟩ := main evs (initState pol) (le_refl 0) (le_refl 0) h
  exact ⟨m1, m2, fun st v_str i_str => refresh_accums st v_str i_str⟩

/-- Witness for C9 over a concrete run with a nonnegative current sample
and a manual reset. -/
theorem c9_accumulator_witness :
    0 ≤ (run (initState defaultResetPolicy)
      [Ev.tick (some "5.0") (some "2.0"), Ev.resetTimerBtn]).elapsed_seconds ∧
    0 ≤ (run (initState defaultResetPolicy)
      [Ev.tick (some "5.0") (some "2.0"), Ev.resetTimerBtn]).energy_ws := by
  have h := c9_accumulator defaultResetPolicy
    [Ev.tick (some "5.0") (some "2.0"), Ev.resetTimerBtn] (by decide)
  exact ⟨h.1, h.2.1⟩

end DC310S
